import Mathlib

/-!
Shallow embedding of the Redshift query-execution tool
(`src/tools/custom_tool_execute_query.py`): configuration validation at
construction (`__init__` / `_validate_config`), connection-error
classification (`_get_connection`), query validation (`_validate_query`),
limit injection and result shaping (`execute_query`), the tool façade
(`execute` method) and the simplified module-level `execute` entry point.

Python strings are modelled as `List Char` so that every operation is
structurally recursive and kernel-computable.  The external collaborators
(psycopg2 connection and cursor, sqlparse) are modelled as oracles supplied
to the embedded functions: a `Database` gives the outcome of the single
connection attempt and of each statement submitted through
`cursor.execute`, and a `parse : Str → Bool` oracle gives whether
`sqlparse.parse` yields a non-empty statement list without raising.
Exceptions are modelled with `Except`; the instrumentation record
`ExecTrace` captures the observable effects the spec talks about (number of
connection attempts, statements submitted to the cursor).
-/

set_option autoImplicit false

/-- Python strings, modelled as character lists. -/
abbrev Str := List Char

/-- Embed a Lean string literal into the model's string type. -/
def str (s : String) : Str := s.toList

/-- Python `str.upper()` (ASCII case mapping, enough for the SQL text involved). -/
def pyUpper (s : Str) : Str := s.map Char.toUpper

/-- Python `str.lower()`. -/
def pyLower (s : Str) : Str := s.map Char.toLower

/-- Python `str.strip()`: drop leading and trailing whitespace. -/
def pyStrip (s : Str) : Str :=
  ((s.dropWhile Char.isWhitespace).reverse.dropWhile Char.isWhitespace).reverse

/-- Python `str.rstrip(';')`: drop every trailing semicolon. -/
def pyRstripSemi (s : Str) : Str :=
  (s.reverse.dropWhile (· == ';')).reverse

/-- Python substring containment `needle in hay`. -/
def containsSub (hay needle : Str) : Bool :=
  hay.tails.any (fun t => needle.isPrefixOf t)

/-- Decimal digits of a natural number, as used by Python string formatting. -/
def natStr (n : Nat) : Str := Nat.toDigits 10 n

/-- Decimal rendering of an integer, as used by Python string formatting. -/
def intStr (n : Int) : Str :=
  if n < 0 then '-' :: natStr n.natAbs else natStr n.natAbs

/-- The process environment, i.e. `os.getenv`: `none` models an unset variable. -/
abbrev Env := String → Option Str

/-- Python truthiness of an `os.getenv` result: falsy when unset or empty. -/
def pyTruthy : Option Str → Bool
  | none => false
  | some s => !s.isEmpty

/-- Helper for `pyInt`: after a first digit `prev`, accept further digits with
single underscores allowed only between digits (Python's integer-literal rule). -/
def pyDigitsRest : Char → Str → Bool
  | prev, [] => prev.isDigit
  | prev, c :: cs => (if c == '_' then prev.isDigit else c.isDigit) && pyDigitsRest c cs

/-- Digit run of a Python integer literal: non-empty digits, underscores only
between digits. -/
def pyIntDigits : Str → Bool
  | [] => false
  | c :: cs => c.isDigit && pyDigitsRest c cs

/-- Numeric value of a digit run, skipping underscores. -/
def digitsVal (s : Str) : Nat :=
  s.foldl (fun a c => if c == '_' then a else a * 10 + (c.toNat - '0'.toNat)) 0

/-- Python `int(s)` for base 10: strip whitespace, optional sign, then a valid
digit run; `none` models the `ValueError` raised otherwise. -/
def pyInt (s : Str) : Option Int :=
  match pyStrip s with
  | '+' :: ds => if pyIntDigits ds then some ((digitsVal ds : Nat) : Int) else none
  | '-' :: ds => if pyIntDigits ds then some (-((digitsVal ds : Nat) : Int)) else none
  | ds => if pyIntDigits ds then some ((digitsVal ds : Nat) : Int) else none

/-- The `ValueError`s that `RedshiftQueryExecutorTool.__init__` can raise. -/
inductive ConfigError where
  /-- `int()` failed on the `REDSHIFT_PORT` string (raised while building the
  connection-parameter dict, before `_validate_config` runs). -/
  | invalidPort (portText : Str)
  /-- `_validate_config` raised, carrying its message text. -/
  | missingEnv (message : Str)
deriving DecidableEq

/-- The `connection_params` dict built by `__init__`. -/
structure ConnectionParams where
  host : Option Str
  port : Int
  database : Option Str
  user : Option Str
  password : Option Str
  connect_timeout : Nat
  sslmode : Str
deriving DecidableEq

/-- The required environment variables checked by `_validate_config`. -/
def requiredVars : List String :=
  ["REDSHIFT_HOST", "REDSHIFT_DATABASE", "REDSHIFT_USER", "REDSHIFT_PASSWORD"]

/-- The `missing_vars` list of `_validate_config`: required variables whose
`os.getenv` value is falsy (unset or empty). -/
def missingVars (env : Env) : List String :=
  requiredVars.filter (fun v => !pyTruthy (env v))

/-- Python `', '.join` over variable names. -/
def joinComma : List String → Str
  | [] => []
  | [v] => str v
  | v :: vs => str v ++ str ", " ++ joinComma vs

/-- `_validate_config`: raise a `ValueError` naming the missing variables, if any. -/
def validateConfig (env : Env) : Except ConfigError Unit :=
  match missingVars env with
  | [] => .ok ()
  | ms => .error (.missingEnv (str "Missing required environment variables: " ++ joinComma ms))

/-- `int(os.getenv('REDSHIFT_PORT', 5439))`: the port entry of the
connection-parameter dict, whose conversion can raise `ValueError`. -/
def portResult (env : Env) : Except ConfigError Int :=
  match env "REDSHIFT_PORT" with
  | none => .ok 5439
  | some s =>
    match pyInt s with
    | some n => .ok n
    | none => .error (.invalidPort s)

/-- `RedshiftQueryExecutorTool.__init__`: build the connection-parameter dict
(the port conversion runs here and can raise first), then run
`_validate_config`. -/
def mkTool (env : Env) : Except ConfigError ConnectionParams := do
  let port ← portResult env
  let params : ConnectionParams :=
    ⟨env "REDSHIFT_HOST", port, env "REDSHIFT_DATABASE", env "REDSHIFT_USER",
      env "REDSHIFT_PASSWORD", 10, str "require"⟩
  validateConfig env
  pure params

/-- The deny-list of `_validate_query`. -/
def dangerousKeywords : List Str :=
  [str "DROP DATABASE", str "DROP SCHEMA", str "TRUNCATE", str "DELETE FROM"]

/-- `_validate_query query query_type`.  The oracle `parse` models
`sqlparse.parse`: `parse query = true` means the parse yields at least one
statement and raises no exception (any exception is folded into `false`,
matching the fail-closed `except` clause). -/
def validateQuery (parse : Str → Bool) (query query_type : Str) : Bool :=
  if !parse query then false
  else
    let query_upper := pyStrip (pyUpper query)
    if dangerousKeywords.any (fun k => containsSub query_upper k)
        && !([str "DELETE", str "DROP", str "ALTER"].contains query_type) then false
    else if query_type == str "SELECT" && !((str "SELECT").isPrefixOf query_upper) then false
    else true

/-- A fetched row: the tuple of its cell values. -/
abbrev Row := List Str

/-- The cursor state psycopg2 exposes after a successful `cursor.execute`:
`description` is `none` when the statement produced no result set. -/
structure CursorState where
  description : Option (List Str)
  rows : List Row
  rowcount : Int
deriving DecidableEq

/-- A psycopg2 backend error: message and optional vendor code (`pgcode`). -/
structure DbError where
  msg : Str
  pgcode : Option Str
deriving DecidableEq

/-- Outcome of the single `psycopg2.connect` attempt. -/
inductive ConnOutcome where
  /-- connection established -/
  | ok
  /-- `psycopg2.OperationalError` with the given message -/
  | operationalError (msg : Str)
  /-- any other exception with the given message -/
  | otherError (msg : Str)
deriving DecidableEq

/-- The external database, as an oracle: the outcome of the connection attempt
and, for each statement text submitted through `cursor.execute`, the resulting
cursor state or backend error. -/
structure Database where
  connect : ConnOutcome
  run : Str → Except DbError CursorState

/-- The result dicts produced by `execute_query` and the `execute` façade; the
constructors mirror the distinct key sets of those dicts. -/
inductive Envelope where
  /-- success for a SELECT-shaped statement: `data`, `columns`, `row_count`, `query` -/
  | selectOk (data : List (List (Str × Str))) (columns : List Str)
      (row_count : Nat) (query : Str)
  /-- success for a non-SELECT-shaped statement: `message`, `affected_rows`, `query` -/
  | writeOk (message : Str) (affected_rows : Int) (query : Str)
  /-- the `psycopg2.Error` handler: `error`, `error_code`, `query` -/
  | dbFailure (error : Str) (error_code : Option Str) (query : Str)
  /-- the generic exception handler of `execute_query`: `error`, `query` -/
  | execFailure (error : Str) (query : Str)
  /-- failure dicts produced by the façade itself: only `success` and `error` keys -/
  | facadeFailure (error : Str)
deriving DecidableEq

/-- The `success` key of a result dict. -/
def Envelope.success : Envelope → Bool
  | .selectOk .. => true
  | .writeOk .. => true
  | _ => false

/-- The `error` key of a result dict, when present. -/
def Envelope.errorText : Envelope → Option Str
  | .dbFailure e _ _ => some e
  | .execFailure e _ => some e
  | .facadeFailure e => some e
  | _ => none

/-- The `query` key of a result dict, when present. -/
def Envelope.queryText : Envelope → Option Str
  | .selectOk _ _ _ q => some q
  | .writeOk _ _ q => some q
  | .dbFailure _ _ q => some q
  | .execFailure _ q => some q
  | .facadeFailure _ => none

/-- Observable effects of one call: how many `psycopg2.connect` attempts were
made and which statement texts were submitted through `cursor.execute`. -/
structure ExecTrace where
  connections : Nat
  statements : List Str
deriving DecidableEq

/-- Message of the `ConnectionError` raised for a timeout-flavoured failure. -/
def timeoutMsg : Str :=
  str "Connection timeout - check network connectivity and Redshift cluster status"

/-- Message of the `ConnectionError` raised for an authentication-flavoured failure. -/
def authFailedMsg : Str :=
  str "Authentication failed - check username and password"

/-- `_get_connection`'s classification of a `psycopg2.OperationalError`
message (an if/elif chain, checked in this order). -/
def classifyConnError (msg : Str) : Str :=
  if containsSub (pyLower msg) (str "timeout") then timeoutMsg
  else if containsSub (pyLower msg) (str "authentication") then authFailedMsg
  else str "Database connection failed: " ++ msg

/-- The limit-injection rewrite of `execute_query`: if the uppercased, stripped
statement starts with `SELECT` and the uppercased statement nowhere contains
`LIMIT`, append ` LIMIT <limit>` after `rstrip(';')`; otherwise leave the
statement unchanged. -/
def finalStatement (query : Str) (limit : Nat) : Str :=
  if (str "SELECT").isPrefixOf (pyStrip (pyUpper query))
      && !containsSub (pyUpper query) (str "LIMIT") then
    pyRstripSemi query ++ str " LIMIT " ++ natStr limit
  else query

/-- The session-level timeout directive run before the caller's statement. -/
def setStatement (timeout : Nat) : Str :=
  str "SET statement_timeout = " ++ natStr (timeout * 1000)

/-- `RedshiftQueryExecutorTool.execute_query query limit timeout` against the
database oracle `db`, returning the result dict together with the observable
effect trace. -/
def execute_query (db : Database) (query : Str) (limit : Nat) (timeout : Nat) :
    Envelope × ExecTrace :=
  match db.connect with
  | .operationalError m =>
    (.execFailure (str "Execution error: " ++ classifyConnError m) query, ⟨1, []⟩)
  | .otherError m =>
    (.execFailure (str "Execution error: " ++ m) query, ⟨1, []⟩)
  | .ok =>
    let setStmt := setStatement timeout
    match db.run setStmt with
    | .error e =>
      (.dbFailure (str "Database error: " ++ e.msg) e.pgcode query, ⟨1, [setStmt]⟩)
    | .ok _ =>
      let query2 := finalStatement query limit
      match db.run query2 with
      | .error e =>
        (.dbFailure (str "Database error: " ++ e.msg) e.pgcode query2, ⟨1, [setStmt, query2]⟩)
      | .ok cs =>
        if (str "SELECT").isPrefixOf (pyStrip (pyUpper query2)) then
          let columns := cs.description.getD []
          let rows := cs.rows
          if !rows.isEmpty && !columns.isEmpty then
            (.selectOk (rows.map (fun r => columns.zip r)) columns rows.length query2,
              ⟨1, [setStmt, query2]⟩)
          else
            (.selectOk [] [] 0 query2, ⟨1, [setStmt, query2]⟩)
        else
          (.writeOk (str "Query executed successfully. Affected rows: " ++ intStr cs.rowcount)
              cs.rowcount query2,
            ⟨1, [setStmt, query2]⟩)

/-- The key-value input of the `execute` façade; `none` models an absent key. -/
structure ToolInput where
  query : Option Str
  query_type : Option Str
  limit : Option Nat
  timeout : Option Nat

/-- `RedshiftQueryExecutorTool.execute tool_input`: extract and default the
parameters, reject an empty query, validate, then delegate to
`execute_query`. -/
def toolExecute (parse : Str → Bool) (db : Database) (input : ToolInput) :
    Envelope × ExecTrace :=
  let query := pyStrip (input.query.getD [])
  let query_type := pyUpper (input.query_type.getD (str "SELECT"))
  let limit := input.limit.getD 1000
  let timeout := input.timeout.getD 30
  if query.isEmpty then
    (.facadeFailure (str "Query parameter is required and cannot be empty"), ⟨0, []⟩)
  else if !validateQuery parse query query_type then
    (.facadeFailure (str "Query validation failed. Please check your SQL syntax and query type."),
      ⟨0, []⟩)
  else
    execute_query db query limit timeout

/-- Return value of the simplified module-level `execute` entry point:
either the `data` list of a SELECT success, or the whole result dict when no
`data` key is present. -/
inductive SimpleOut where
  | rows (data : List (List (Str × Str)))
  | envelope (e : Envelope)
deriving DecidableEq

/-- The `@tool`-decorated module-level `execute(query, limit)`: construct a
`RedshiftQueryExecutorTool` (its `ValueError`s propagate — the construction is
outside any handler), call the façade with declared type `SELECT` and timeout
30, then return the data (or whole dict) on success, and on failure print the
error and return `None`.  The result carries the returned value, the console
lines printed, and the effect trace. -/
def simpleExecute (parse : Str → Bool) (db : Database) (env : Env)
    (query : Str) (limit : Nat) :
    Except ConfigError (Option SimpleOut × List Str × ExecTrace) :=
  match mkTool env with
  | .error e => .error e
  | .ok _ =>
    let r := toolExecute parse db ⟨some query, some (str "SELECT"), some limit, some 30⟩
    match r.1 with
    | .selectOk data _ _ _ => .ok (some (.rows data), [], r.2)
    | .writeOk m a q => .ok (some (.envelope (.writeOk m a q)), [], r.2)
    | .dbFailure er _ _ => .ok (none, [str "❌ Error: " ++ er], r.2)
    | .execFailure er _ => .ok (none, [str "❌ Error: " ++ er], r.2)
    | .facadeFailure er => .ok (none, [str "❌ Error: " ++ er], r.2)

deriving instance DecidableEq for Except

/-- A database oracle that connects and answers every statement with an empty
one-column result set. -/
def dbEmptyResult : Database := ⟨.ok, fun _ => .ok ⟨some [str "a"], [], 0⟩⟩

/-- A database oracle that connects, accepts the timeout directive, and fails
every other statement with a syntax error carrying vendor code 42601. -/
def dbSyntaxErr : Database :=
  ⟨.ok, fun s => if s == setStatement 30 then .ok ⟨none, [], -1⟩
                 else .error ⟨str "syntax error", some (str "42601")⟩⟩

/-- A database oracle whose connection attempt raises an OperationalError whose
message mentions both authentication and timeout. -/
def dbAuthTimeout : Database :=
  ⟨.operationalError (str "authentication timeout"), fun _ => .ok ⟨none, [], 0⟩⟩

/-- A database oracle that connects and answers every statement with a
two-column, two-row result set. -/
def dbTwoRows : Database :=
  ⟨.ok, fun _ => .ok ⟨some [str "a", str "b"], [[str "1", str "2"], [str "3", str "4"]], 2⟩⟩

/-- An environment with all four required variables set and the port unset. -/
def envFull : Env := fun v =>
  if v = "REDSHIFT_HOST" then some (str "h")
  else if v = "REDSHIFT_DATABASE" then some (str "d")
  else if v = "REDSHIFT_USER" then some (str "u")
  else if v = "REDSHIFT_PASSWORD" then some (str "p")
  else none

/-- The environment `envFull` with `REDSHIFT_HOST` removed. -/
def envNoHost : Env := fun v => if v = "REDSHIFT_HOST" then none else envFull v

/-- After a successful connection and timeout directive, the effect trace is
exactly one connection attempt with the timeout directive followed by the
(possibly limit-injected) statement, and the result dict's `query` key carries
that possibly rewritten statement — whatever the statement's outcome. -/
theorem execute_query_trace (db : Database) (q : Str) (l t : Nat) (cs : CursorState)
    (hconn : db.connect = ConnOutcome.ok)
    (hset : db.run (setStatement t) = .ok cs) :
    (execute_query db q l t).2 = ⟨1, [setStatement t, finalStatement q l]⟩
    ∧ (execute_query db q l t).1.queryText = some (finalStatement q l) := by
  cases hrun : db.run (finalStatement q l) with
  | error e => simp [execute_query, hconn, hset, hrun, Envelope.queryText]
  | ok csr =>
    simp only [execute_query, hconn, hset, hrun]
    split
    · split <;> simp [Envelope.queryText]
    · simp [Envelope.queryText]

/-- C3: for a statement whose uppercased, stripped form starts with SELECT and
whose uppercased text contains no occurrence of LIMIT, the text submitted to the
cursor (and reported in the result dict's `query` key) is the original with all
trailing semicolons stripped followed by ` LIMIT <limit>`; when the uppercased
text does contain LIMIT, the submitted and reported text is unchanged. -/
theorem C3_limit_injection (db : Database) (q : Str) (l t : Nat) (cs : CursorState)
    (hconn : db.connect = ConnOutcome.ok)
    (hset : db.run (setStatement t) = .ok cs)
    (hsel : (str "SELECT").isPrefixOf (pyStrip (pyUpper q)) = true) :
    (containsSub (pyUpper q) (str "LIMIT") = false →
      (execute_query db q l t).2.statements
          = [setStatement t, pyRstripSemi q ++ str " LIMIT " ++ natStr l]
      ∧ (execute_query db q l t).1.queryText
          = some (pyRstripSemi q ++ str " LIMIT " ++ natStr l))
    ∧ (containsSub (pyUpper q) (str "LIMIT") = true →
      (execute_query db q l t).2.statements = [setStatement t, q]
      ∧ (execute_query db q l t).1.queryText = some q) := by
  obtain ⟨htr, hqt⟩ := execute_query_trace db q l t cs hconn hset
  constructor
  · intro hno
    have hfs : finalStatement q l = pyRstripSemi q ++ str " LIMIT " ++ natStr l := by
      simp [finalStatement, hsel, hno]
    rw [hfs] at htr hqt
    exact ⟨by rw [htr], hqt⟩
  · intro hyes
    have hfs : finalStatement q l = q := by
      simp [finalStatement, hyes]
    rw [hfs] at htr hqt
    exact ⟨by rw [htr], hqt⟩

/-- Witness for C3 at concrete inputs: `SELECT x FROM t;` with limit 5 runs as
`SELECT x FROM t LIMIT 5`, while `SELECT 1 LIMIT 3` runs unchanged. -/
theorem C3_limit_injection_witness :
    (execute_query dbEmptyResult (str "SELECT x FROM t;") 5 30).2.statements
        = [str "SET statement_timeout = 30000", str "SELECT x FROM t LIMIT 5"]
    ∧ (execute_query dbEmptyResult (str "SELECT 1 LIMIT 3") 5 30).1.queryText
        = some (str "SELECT 1 LIMIT 3") := by
  constructor
  · have h := (C3_limit_injection dbEmptyResult (str "SELECT x FROM t;") 5 30
      ⟨some [str "a"], [], 0⟩ rfl rfl (by decide)).1 (by decide)
    exact h.1.trans (by decide)
  · exact ((C3_limit_injection dbEmptyResult (str "SELECT 1 LIMIT 3") 5 30
      ⟨some [str "a"], [], 0⟩ rfl rfl (by decide)).2 (by decide)).2

/-- C4: a statement whose uppercased (stripped) form contains a deny-listed
substring fails validation whenever the declared type is outside
{DELETE, DROP, ALTER}; with declared type DELETE, a parseable statement
containing DELETE FROM passes validation (the SELECT-prefix rule does not
apply to type DELETE). -/
theorem C4_dangerous_keywords (parse : Str → Bool) (q qt : Str) :
    (dangerousKeywords.any (fun k => containsSub (pyStrip (pyUpper q)) k) = true →
      ([str "DELETE", str "DROP", str "ALTER"].contains qt) = false →
      validateQuery parse q qt = false)
    ∧ (parse q = true →
      containsSub (pyStrip (pyUpper q)) (str "DELETE FROM") = true →
      validateQuery parse q (str "DELETE") = true) := by
  constructor
  · intro hd ht
    by_cases hp : parse q = true
    · simp [validateQuery, hp, hd]
      intro hin
      rcases hin with h | h | h <;> subst h <;> exact absurd ht (by decide)
    · have hpf : parse q = false := by
        cases hpq : parse q
        · rfl
        · exact absurd hpq hp
      simp [validateQuery, hpf]
  · intro hp hdel
    simp [validateQuery, hp]
    exact Or.inl (by decide)

/-- Witness for C4 at concrete inputs: `DELETE FROM t` with declared type
SELECT fails validation, and the same statement with declared type DELETE
passes. -/
theorem C4_dangerous_keywords_witness :
    validateQuery (fun _ => true) (str "DELETE FROM t") (str "SELECT") = false
    ∧ validateQuery (fun _ => true) (str "DELETE FROM t") (str "DELETE") = true := by
  constructor
  · exact (C4_dangerous_keywords (fun _ => true) (str "DELETE FROM t") (str "SELECT")).1
      (by decide) (by decide)
  · exact (C4_dangerous_keywords (fun _ => true) (str "DELETE FROM t") (str "SELECT")).2
      rfl (by decide)

/-- Counterexample to C1 as stated: against a database whose cursor reports one
column named `a` and zero rows, the SELECT execution succeeds but the result
dict's `columns` entry is the empty list, not the measured column list
`[a]`, because the code only pairs rows with columns when at least one row was
fetched. -/
theorem C1_counterexample :
    (execute_query dbEmptyResult (str "SELECT x FROM t") 5 30).1
        = .selectOk [] [] 0 (str "SELECT x FROM t LIMIT 5")
    ∧ dbEmptyResult.run (str "SELECT x FROM t LIMIT 5") = .ok ⟨some [str "a"], [], 0⟩
    ∧ ([] : List Str) ≠ [str "a"] := by decide

/-- C1 (amended): for a SELECT-shaped execution whose statement succeeds with
cursor description `cols`, the result dict has `row_count` equal to the number
of fetched rows, `columns` equal to the cursor's reported column names in order,
and record-shaped data — but only when at least one row was fetched and the
description is non-empty; when zero rows are fetched the call still succeeds
with an empty data sequence, `row_count` 0, and an empty `columns` list even if
a result description is present. -/
theorem C1_select_result_shape (db : Database) (q : Str) (l t : Nat)
    (cs csr : CursorState) (cols : List Str)
    (hconn : db.connect = ConnOutcome.ok)
    (hset : db.run (setStatement t) = .ok cs)
    (hrun : db.run (finalStatement q l) = .ok csr)
    (hsel : (str "SELECT").isPrefixOf (pyStrip (pyUpper (finalStatement q l))) = true)
    (hdesc : csr.description = some cols) :
    (csr.rows ≠ [] → cols ≠ [] →
      (execute_query db q l t).1
        = .selectOk (csr.rows.map (fun r => cols.zip r)) cols csr.rows.length
            (finalStatement q l))
    ∧ (csr.rows = [] →
      (execute_query db q l t).1 = .selectOk [] [] 0 (finalStatement q l)) := by
  constructor
  · intro hrows hcols
    simp [execute_query, hconn, hset, hrun, hsel, hdesc, hrows, hcols]
  · intro hrows
    simp [execute_query, hconn, hset, hrun, hsel, hdesc, hrows]

/-- Witness for C1 (amended) at a concrete input: two fetched rows over columns
`a`, `b` produce two records, the column list in order, and `row_count` 2. -/
theorem C1_select_result_shape_witness :
    (execute_query dbTwoRows (str "SELECT a, b FROM t") 5 30).1
      = .selectOk
          [[(str "a", str "1"), (str "b", str "2")], [(str "a", str "3"), (str "b", str "4")]]
          [str "a", str "b"] 2 (str "SELECT a, b FROM t LIMIT 5") := by
  have h := (C1_select_result_shape dbTwoRows (str "SELECT a, b FROM t") 5 30
      ⟨some [str "a", str "b"], [[str "1", str "2"], [str "3", str "4"]], 2⟩
      ⟨some [str "a", str "b"], [[str "1", str "2"], [str "3", str "4"]], 2⟩
      [str "a", str "b"] rfl rfl rfl (by decide) rfl).1 (by decide) (by decide)
  exact h.trans (by decide)

/-- C2 (amended): a failure dict carries the statement text as of the failure
point — the original text for connection failures and for a failing timeout
directive (both happen before limit injection), and the possibly limit-injected
text for a backend error raised by the caller's statement — together with the
error message and, for backend errors, the vendor error code. -/
theorem C2_failure_statement_text (db : Database) (q : Str) (l t : Nat) :
    (∀ m, db.connect = .operationalError m →
      (execute_query db q l t).1
        = .execFailure (str "Execution error: " ++ classifyConnError m) q)
    ∧ (∀ m, db.connect = .otherError m →
      (execute_query db q l t).1 = .execFailure (str "Execution error: " ++ m) q)
    ∧ (∀ e, db.connect = .ok → db.run (setStatement t) = .error e →
      (execute_query db q l t).1
        = .dbFailure (str "Database error: " ++ e.msg) e.pgcode q)
    ∧ (∀ cs e, db.connect = .ok → db.run (setStatement t) = .ok cs →
      db.run (finalStatement q l) = .error e →
      (execute_query db q l t).1
        = .dbFailure (str "Database error: " ++ e.msg) e.pgcode (finalStatement q l)) := by
  refine ⟨fun m hm => ?_, fun m hm => ?_, fun e hc hs => ?_, fun cs e hc hs hr => ?_⟩
  · simp [execute_query, hm]
  · simp [execute_query, hm]
  · simp [execute_query, hc, hs]
  · simp [execute_query, hc, hs, hr]

/-- Witness for C2 (amended) at a concrete input: a failing
`SELECT bogus` receives the injected limit, and the backend-error dict carries
message, vendor code 42601 and the injected text. -/
theorem C2_failure_statement_text_witness :
    (execute_query dbSyntaxErr (str "SELECT bogus") 1000 30).1
      = .dbFailure (str "Database error: syntax error") (some (str "42601"))
          (str "SELECT bogus LIMIT 1000") := by
  have h := (C2_failure_statement_text dbSyntaxErr (str "SELECT bogus") 1000 30).2.2.2
      ⟨none, [], -1⟩ ⟨str "syntax error", some (str "42601")⟩ rfl (by decide) (by decide)
  exact h.trans (by decide)

/-- Counterexample to C2 as stated: when `SELECT bogus` fails at the backend
after limit injection, the failure dict's `query` field is the injected text
`SELECT bogus LIMIT 1000`, not the original statement as submitted by the
caller. -/
theorem C2_counterexample :
    (execute_query dbSyntaxErr (str "SELECT bogus") 1000 30).1.queryText
        = some (str "SELECT bogus LIMIT 1000")
    ∧ (str "SELECT bogus LIMIT 1000" : Str) ≠ str "SELECT bogus" := by decide

/-- C5: if the port entry converts, construction fails exactly when some
required variable is falsy, with a `ValueError` whose message enumerates (in
the fixed order of `requiredVars`) exactly the names whose value is falsy; when
all four are truthy, construction succeeds with the parameter dict. -/
theorem C5_config_validation (env : Env) (n : Int) (hport : portResult env = .ok n) :
    (missingVars env ≠ [] →
      mkTool env = .error (.missingEnv
          (str "Missing required environment variables: " ++ joinComma (missingVars env)))
      ∧ ∀ v, v ∈ missingVars env ↔ (v ∈ requiredVars ∧ pyTruthy (env v) = false))
    ∧ (missingVars env = [] →
      mkTool env = .ok ⟨env "REDSHIFT_HOST", n, env "REDSHIFT_DATABASE",
        env "REDSHIFT_USER", env "REDSHIFT_PASSWORD", 10, str "require"⟩) := by
  constructor
  · intro hm
    constructor
    · cases hms : missingVars env with
      | nil => exact absurd hms hm
      | cons a as =>
        simp [mkTool, hport, validateConfig, hms, bind, Except.bind]
    · intro v
      simp [missingVars, List.mem_filter, Bool.not_eq_true']
  · intro hm
    simp [mkTool, hport, validateConfig, hm, bind, Except.bind, pure, Except.pure]

/-- Witness for C5 at concrete environments: with only `REDSHIFT_HOST` unset the
constructor raises naming exactly `REDSHIFT_HOST`; with all four set it
succeeds. -/
theorem C5_config_validation_witness :
    mkTool envNoHost
        = .error (.missingEnv (str "Missing required environment variables: REDSHIFT_HOST"))
    ∧ mkTool envFull
        = .ok ⟨some (str "h"), 5439, some (str "d"), some (str "u"), some (str "p"),
            10, str "require"⟩ := by
  constructor
  · have h := ((C5_config_validation envNoHost 5439 rfl).1 (by decide)).1
    exact h.trans (by decide)
  · exact (C5_config_validation envFull 5439 rfl).2 (by decide)

/-- C6: an input whose non-empty query fails validation makes the façade return
the validation-failure dict with `success` false, with zero connection attempts
and no statement ever submitted — the executor is not invoked. -/
theorem C6_validation_failure_no_connection (parse : Str → Bool) (db : Database)
    (input : ToolInput)
    (hne : (pyStrip (input.query.getD [])).isEmpty = false)
    (hval : validateQuery parse (pyStrip (input.query.getD []))
        (pyUpper (input.query_type.getD (str "SELECT"))) = false) :
    toolExecute parse db input
      = (.facadeFailure
          (str "Query validation failed. Please check your SQL syntax and query type."),
        ⟨0, []⟩)
    ∧ (toolExecute parse db input).1.success = false
    ∧ (toolExecute parse db input).2.connections = 0 := by
  have h : toolExecute parse db input
      = (.facadeFailure
          (str "Query validation failed. Please check your SQL syntax and query type."),
        ⟨0, []⟩) := by
    simp [toolExecute, hne, hval]
  exact ⟨h, by simp [h, Envelope.success], by simp [h]⟩

/-- Witness for C6 at the spec's own scenario: `DROP SCHEMA public` declared as
SELECT yields the validation-failure dict and zero connection attempts. -/
theorem C6_validation_failure_no_connection_witness :
    toolExecute (fun _ => true) dbEmptyResult
        ⟨some (str "DROP SCHEMA public"), some (str "SELECT"), none, none⟩
      = (.facadeFailure
          (str "Query validation failed. Please check your SQL syntax and query type."),
        ⟨0, []⟩) := by
  exact (C6_validation_failure_no_connection (fun _ => true) dbEmptyResult
      ⟨some (str "DROP SCHEMA public"), some (str "SELECT"), none, none⟩
      (by decide) (by decide)).1

/-- A database oracle whose connection attempt raises an OperationalError with
a timeout-flavoured message. -/
def dbOpTimeout : Database :=
  ⟨.operationalError (str "connection timeout"), fun _ => .ok ⟨none, [], 0⟩⟩

/-- The environment `envFull` with `REDSHIFT_PORT` set to the non-numeric
string `abc`. -/
def envBadPort : Env := fun v => if v = "REDSHIFT_PORT" then some (str "abc") else envFull v

/-- A database oracle whose connection attempt raises an OperationalError with
an authentication-flavoured message. -/
def dbOpAuth : Database :=
  ⟨.operationalError (str "password authentication failed"), fun _ => .ok ⟨none, [], 0⟩⟩

/-- Counterexample to C7 as stated: the OperationalError message
`authentication timeout` contains `authentication`, yet the failure is
classified as a connection timeout (the timeout check runs first), not as an
authentication failure. -/
theorem C7_counterexample :
    containsSub (pyLower (str "authentication timeout")) (str "authentication") = true
    ∧ (execute_query dbAuthTimeout (str "SELECT 1") 5 30).1
        = .execFailure (str "Execution error: " ++ timeoutMsg) (str "SELECT 1")
    ∧ str "Execution error: " ++ timeoutMsg ≠ str "Execution error: " ++ authFailedMsg := by
  decide

/-- C7 (amended): a connection attempt failing with an OperationalError is
reported as a failure after exactly one connection attempt (no retry), with the
message classified in order: a message containing `timeout` maps to the
connection-timeout kind; a message containing `authentication` but not
`timeout` maps to the authentication-failed kind; any other message maps to the
generic database-connection-failed kind. -/
theorem C7_conn_error_classification (db : Database) (q : Str) (l t : Nat) (m : Str)
    (hconn : db.connect = .operationalError m) :
    (execute_query db q l t).1
        = .execFailure (str "Execution error: " ++ classifyConnError m) q
    ∧ (execute_query db q l t).2.connections = 1
    ∧ (containsSub (pyLower m) (str "timeout") = true → classifyConnError m = timeoutMsg)
    ∧ (containsSub (pyLower m) (str "timeout") = false →
        containsSub (pyLower m) (str "authentication") = true →
        classifyConnError m = authFailedMsg)
    ∧ (containsSub (pyLower m) (str "timeout") = false →
        containsSub (pyLower m) (str "authentication") = false →
        classifyConnError m = str "Database connection failed: " ++ m) := by
  refine ⟨by simp [execute_query, hconn], by simp [execute_query, hconn], ?_, ?_, ?_⟩
  · intro h1
    simp [classifyConnError, h1]
  · intro h1 h2
    simp [classifyConnError, h1, h2]
  · intro h1 h2
    simp [classifyConnError, h1, h2]

/-- Witness for C7 (amended) at concrete inputs: a `connection timeout` message
is reported as the timeout kind after one connection attempt, and a
`password authentication failed` message as the authentication kind. -/
theorem C7_conn_error_classification_witness :
    (execute_query dbOpTimeout (str "SELECT 1") 5 30).1
        = .execFailure (str "Execution error: " ++ timeoutMsg) (str "SELECT 1")
    ∧ (execute_query dbOpTimeout (str "SELECT 1") 5 30).2.connections = 1
    ∧ classifyConnError (str "password authentication failed") = authFailedMsg := by
  refine ⟨?_, ?_, ?_⟩
  · exact (C7_conn_error_classification dbOpTimeout (str "SELECT 1") 5 30
      (str "connection timeout") rfl).1.trans (by decide)
  · exact (C7_conn_error_classification dbOpTimeout (str "SELECT 1") 5 30
      (str "connection timeout") rfl).2.1
  · exact (C7_conn_error_classification dbOpAuth (str "SELECT 1") 5 30
      (str "password authentication failed") rfl).2.2.2.1 (by decide) (by decide)

/-- C8: with a successfully constructed tool, the simplified entry point is the
façade applied with declared type `SELECT` and timeout 30; when that façade call
yields a failure dict, the entry point prints the error message to the console
and returns `None`; when it succeeds it returns a value with nothing printed. -/
theorem C8_simple_entry (parse : Str → Bool) (db : Database) (env : Env)
    (q : Str) (l : Nat) (p : ConnectionParams) (hmk : mkTool env = .ok p) :
    (∀ er, (toolExecute parse db
        ⟨some q, some (str "SELECT"), some l, some 30⟩).1.errorText = some er →
      simpleExecute parse db env q l
        = .ok (none, [str "❌ Error: " ++ er],
            (toolExecute parse db ⟨some q, some (str "SELECT"), some l, some 30⟩).2))
    ∧ ((toolExecute parse db
        ⟨some q, some (str "SELECT"), some l, some 30⟩).1.success = true →
      ∃ v, simpleExecute parse db env q l
        = .ok (some v, [],
            (toolExecute parse db ⟨some q, some (str "SELECT"), some l, some 30⟩).2)) := by
  constructor
  · intro er her
    cases hr : (toolExecute parse db ⟨some q, some (str "SELECT"), some l, some 30⟩).1 with
    | selectOk data cols rc qq => rw [hr] at her; exact absurd her (by simp [Envelope.errorText])
    | writeOk m a qq => rw [hr] at her; exact absurd her (by simp [Envelope.errorText])
    | dbFailure e c qq =>
      rw [hr] at her
      simp [Envelope.errorText] at her
      simp [simpleExecute, hmk, hr, her]
    | execFailure e qq =>
      rw [hr] at her
      simp [Envelope.errorText] at her
      simp [simpleExecute, hmk, hr, her]
    | facadeFailure e =>
      rw [hr] at her
      simp [Envelope.errorText] at her
      simp [simpleExecute, hmk, hr, her]
  · intro hs
    cases hr : (toolExecute parse db ⟨some q, some (str "SELECT"), some l, some 30⟩).1 with
    | selectOk data cols rc qq => exact ⟨.rows data, by simp [simpleExecute, hmk, hr]⟩
    | writeOk m a qq => exact ⟨.envelope (.writeOk m a qq), by simp [simpleExecute, hmk, hr]⟩
    | dbFailure e c qq => rw [hr] at hs; exact absurd hs (by simp [Envelope.success])
    | execFailure e qq => rw [hr] at hs; exact absurd hs (by simp [Envelope.success])
    | facadeFailure e => rw [hr] at hs; exact absurd hs (by simp [Envelope.success])

/-- Witness for C8 at a concrete input: with a valid environment, the failing
query `DROP TABLE x` (declared SELECT by the entry point) makes the entry point
print the validation-failure message and return `None`. -/
theorem C8_simple_entry_witness :
    simpleExecute (fun _ => true) dbEmptyResult envFull (str "DROP TABLE x") 5
      = .ok (none,
          [str "❌ Error: Query validation failed. Please check your SQL syntax and query type."],
          ⟨0, []⟩) := by
  have h := (C8_simple_entry (fun _ => true) dbEmptyResult envFull (str "DROP TABLE x") 5
      ⟨some (str "h"), 5439, some (str "d"), some (str "u"), some (str "p"), 10, str "require"⟩
      (by decide)).1
      (str "Query validation failed. Please check your SQL syntax and query type.")
      (by decide)
  exact h.trans (by decide)

/-- C9: whenever a required environment variable is falsy, the simplified entry
point propagates a `ValueError` from the tool construction in its own body
(there is no handler around it): the call raises instead of printing an error
and returning `None`. -/
theorem C9_simple_entry_raises (parse : Str → Bool) (db : Database) (env : Env)
    (q : Str) (l : Nat) (hmiss : missingVars env ≠ []) :
    ∃ e, simpleExecute parse db env q l = .error e := by
  cases hp : portResult env with
  | error e =>
    refine ⟨e, ?_⟩
    simp [simpleExecute, mkTool, hp, bind, Except.bind]
  | ok n =>
    refine ⟨.missingEnv (str "Missing required environment variables: "
        ++ joinComma (missingVars env)), ?_⟩
    cases hms : missingVars env with
    | nil => exact absurd hms hmiss
    | cons a as =>
      simp [simpleExecute, mkTool, hp, validateConfig, hms, bind, Except.bind]

/-- Witness for C9 at a concrete input: with `REDSHIFT_HOST` unset, the entry
point raises rather than returning. -/
theorem C9_simple_entry_raises_witness :
    ∃ e, simpleExecute (fun _ => true) dbEmptyResult envNoHost (str "SELECT 1") 5
        = .error e := by
  exact C9_simple_entry_raises (fun _ => true) dbEmptyResult envNoHost (str "SELECT 1") 5
    (by decide)

/-- C10: if `REDSHIFT_PORT` is set to a string that is not a valid integer
literal, construction fails with the `int()` conversion error — raised while
the parameter dict is being built, before `_validate_config` runs — so the
resulting error is never the one that enumerates missing variable names,
whatever the other variables hold. -/
theorem C10_port_parse_before_env_check (env : Env) (s : Str)
    (hs : env "REDSHIFT_PORT" = some s) (hbad : pyInt s = none) :
    mkTool env = .error (.invalidPort s)
    ∧ ∀ m, mkTool env ≠ .error (.missingEnv m) := by
  have h : mkTool env = .error (.invalidPort s) := by
    simp [mkTool, portResult, hs, hbad, bind, Except.bind]
  refine ⟨h, fun m hc => ?_⟩
  rw [h] at hc
  simp at hc

/-- Witness for C10 at a concrete input: all four required variables set but
`REDSHIFT_PORT` set to `abc` yields the port-conversion error, not the
missing-variable enumeration. -/
theorem C10_port_parse_before_env_check_witness :
    mkTool envBadPort = .error (.invalidPort (str "abc"))
    ∧ ∀ m, mkTool envBadPort ≠ .error (.missingEnv m) := by
  exact C10_port_parse_before_env_check envBadPort (str "abc") (by decide) (by decide)
